import Mathlib

/-!
Shallow embedding of `src/main.c` of the oe-doom-launcher repository:
an Avahi-based peer-discovery / leader-election / game-launcher daemon.
The embedding models the discovery-event state machine: the remote peer
registry (`client_service_list`), the current host record, the debounce
timer, and the child-process supervision, as pure functions over an
explicit state, with discovery callbacks turned into events.
-/

namespace DoomLauncher

/-- `CLIENT_SERVICE_NAME` macro from main.c. -/
def CLIENT_SERVICE_NAME : String := "_oe-doom-client._udp"

/-- `HOST_SERVICE_NAME` macro from main.c. -/
def HOST_SERVICE_NAME : String := "_oe-doom-host._udp"

/-- `CAN_HOST_KEY` macro from main.c. -/
def CAN_HOST_KEY : String := "can-host"

/-- `WAD_KEY` macro from main.c. -/
def WAD_KEY : String := "wad"

/-- `AVAHI_LOOKUP_RESULT_OUR_OWN` flag bit (avahi-common/defs.h). -/
def AVAHI_LOOKUP_RESULT_OUR_OWN : Nat := 16

/-- Byte-wise string comparison as C `strcmp`, returning the sign of the
result (`g_strcmp0` on non-NULL arguments; only the sign of its result is
ever used in main.c). -/
def strcmpChars : List Char → List Char → Int
  | [], [] => 0
  | [], _ :: _ => -1
  | _ :: _, [] => 1
  | a :: as, b :: bs =>
    if a.toNat < b.toNat then -1
    else if b.toNat < a.toNat then 1
    else strcmpChars as bs

/-- `g_strcmp0` restricted to non-NULL strings (every call site in main.c
passes strings duplicated from non-NULL Avahi callback arguments). -/
def g_strcmp0 (a b : String) : Int := strcmpChars a.data b.data

/-- `struct remote_service` from main.c (the TAILQ link is implicit in the
Lean list holding the entries).  `flags` is the `AvahiLookupResultFlags`
bitmask; `wad` is `NULL` (`none`) unless a `wad` TXT pair was present. -/
structure remote_service where
  interface : Int
  protocol : Int
  port : Nat
  name : String
  type : String
  domain : String
  hostname : String
  wad : Option String
  flags : Nat
  can_host : Bool
deriving DecidableEq

/-- Test of the `AVAHI_LOOKUP_RESULT_OUR_OWN` bit of a remote service's
flags, as written at each use site in main.c. -/
def our_own (s : remote_service) : Bool :=
  s.flags &&& AVAHI_LOOKUP_RESULT_OUR_OWN != 0

/-- `remote_service_equal` from main.c lines 125-130: compares type, name,
interface and protocol (note: not domain). -/
def remote_service_equal (a b : remote_service) : Bool :=
  (g_strcmp0 a.type b.type == 0) && (g_strcmp0 a.name b.name == 0) &&
    (a.interface == b.interface) && (a.protocol == b.protocol)

/-- `cmp_remote_service` from main.c lines 294-301: services that can host
sort first (`!!b->can_host - !!a->can_host`), then by name. -/
def cmp_remote_service (a b : remote_service) : Int :=
  if a.can_host != b.can_host then
    (if b.can_host then 1 else 0) - (if a.can_host then 1 else 0)
  else
    g_strcmp0 a.name b.name

/-- The sorted-insert loop of `resolve_callback` (main.c lines 481-492):
walk the list and insert before the first entry the new service compares
less than; append at the tail if no such entry exists. -/
def sorted_insert (s : remote_service) : List remote_service → List remote_service
  | [] => [s]
  | c :: rest =>
    if cmp_remote_service s c < 0 then s :: c :: rest
    else c :: sorted_insert s rest

/-- The client branch of `resolve_callback` (main.c lines 461-492) acting on
the registry alone: remove all entries `remote_service_equal` to the new
service, then insert the new service at its sorted position. -/
def upsert_client (svc : remote_service) (l : List remote_service) : List remote_service :=
  sorted_insert svc (l.filter (fun c => !(remote_service_equal svc c)))

/-- Match on (name, type, domain) as in the `AVAHI_BROWSER_REMOVE` loop of
`browse_callback` (main.c lines 557-569). -/
def matches_ntd (c : remote_service) (name type domain : String) : Bool :=
  (g_strcmp0 c.name name == 0) && (g_strcmp0 c.type type == 0) &&
    (g_strcmp0 c.domain domain == 0)

/-- A registry mutation: either a successful client-record resolution
(upsert) or a browse removal event, the only two operations main.c performs
on `client_service_list`. -/
inductive RegistryOp where
  | upsert (svc : remote_service)
  | remove (name type domain : String)
deriving DecidableEq

/-- Apply one registry mutation to the registry list. -/
def apply_registry_op (l : List remote_service) : RegistryOp → List remote_service
  | .upsert svc => upsert_client svc l
  | .remove name type domain => l.filter (fun c => !(matches_ntd c name type domain))

/-- The election ordering of §4.3 of the spec: entries with
`canHost == true` before entries with `canHost == false`, and within equal
`canHost` ascending lexicographic (byte-wise) order of `serviceName`. -/
def election_le (a b : remote_service) : Prop :=
  (a.can_host = true ∧ b.can_host = false) ∨
    (a.can_host = b.can_host ∧ g_strcmp0 a.name b.name ≤ 0)

/-- The composite discovery identity of §3 of the spec:
(serviceName, serviceType, domain, networkInterface, networkProtocol). -/
def same_identity (a b : remote_service) : Prop :=
  a.name = b.name ∧ a.type = b.type ∧ a.domain = b.domain ∧
    a.interface = b.interface ∧ a.protocol = b.protocol

/-- `struct config` from main.c (the fields the modelled handlers read). -/
structure config where
  port : Nat
  zdoom : String
  mp_wad : String
  mp_map : String
  mp_config : Option String
  sp_wad : String
  sp_config : Option String
  can_host : Bool
  source_wait : Nat
deriving DecidableEq

/-- Argument vector built by `launch_single_player` (main.c lines 168-186). -/
def sp_argv (cfg : config) : List String :=
  [cfg.zdoom, "-iwad", cfg.sp_wad] ++
    (match cfg.sp_config with
     | some c => ["-config", c]
     | none => [])

/-- Argument vector built by `connect_to_host` (main.c lines 188-212) from the
current host record.  A host record without a `wad` TXT pair would pass a NULL
pointer to `g_strv_builder_add`; that undefined case is rendered as `""`. -/
def join_argv (cfg : config) (h : remote_service) : List String :=
  [cfg.zdoom, "-iwad",
   (match h.wad with
    | some w => w
    | none => ""),
   "-join", h.hostname, "-port", toString h.port] ++
    (match cfg.mp_config with
     | some c => ["-config", c]
     | none => [])

/-- Argument vector built by `host_game` (main.c lines 214-242). -/
def host_argv (cfg : config) (num_players : Nat) : List String :=
  [cfg.zdoom, "-iwad", cfg.mp_wad, "-deathmatch", "+map", cfg.mp_map,
   "-host", toString num_players, "-port", toString cfg.port] ++
    (match cfg.mp_config with
     | some c => ["-config", c]
     | none => [])

/-- The mutable state of main.c: the remote client registry
(`client_service_list`), `current_host`, whether the debounce timer source is
pending (`timeout_source != 0`), the tracked child (`child_pid`, with the argv
it was spawned with), `single_player_running`, whether the local host service
entry group is established (`local_host_service.group != NULL`), plus
bookkeeping for the set of currently running child processes (to state the
at-most-one-child property) and an `aborted` flag set when the program calls
the fatal `g_error`. -/
structure SessionState where
  registry : List remote_service
  currentHost : Option remote_service
  timerPending : Bool
  childPid : Nat
  childArgv : Option (List String)
  singlePlayerRunning : Bool
  hostServiceActive : Bool
  liveChildren : List Nat
  nextPid : Nat
  aborted : Bool
deriving DecidableEq

/-- First phase of `spawn_child` (main.c lines 135-139): if a child is
tracked, kill it and wait synchronously for it, so it is no longer
running. -/
def spawn_reap (s : SessionState) : SessionState :=
  if s.childPid != 0 then
    { s with liveChildren := s.liveChildren.filter (fun p => p ≠ s.childPid),
             childPid := 0 }
  else s

/-- Second phase of `spawn_child` (main.c lines 145-165): start the new
process and track it.  Fresh pids are drawn from `nextPid`. -/
def spawn_start (argv : List String) (s : SessionState) : SessionState :=
  { s with childPid := s.nextPid + 1, childArgv := some argv,
           liveChildren := (s.nextPid + 1) :: s.liveChildren, nextPid := s.nextPid + 1 }

/-- `spawn_child` (main.c lines 134-166): reap any tracked previous child,
then spawn and track the new one. -/
def spawn_child (argv : List String) (s : SessionState) : SessionState :=
  spawn_start argv (spawn_reap s)

/-- `launch_single_player` (main.c lines 168-186): withdraw the host
advertisement, then spawn the single-player game unless one is already
running. -/
def launch_single_player (cfg : config) (s : SessionState) : SessionState :=
  if !s.singlePlayerRunning then
    { spawn_child (sp_argv cfg) { s with hostServiceActive := false } with
      singlePlayerRunning := true }
  else { s with hostServiceActive := false }

/-- `connect_to_host` (main.c lines 188-212): withdraw the host
advertisement and spawn the join process aimed at `current_host`.  The C code
dereferences `current_host` unconditionally; it is only called right after
`current_host` is assigned, so the `none` branch is unreachable on the real
call path and is rendered as a no-op. -/
def connect_to_host (cfg : config) (s : SessionState) : SessionState :=
  match s.currentHost with
  | none => s
  | some h =>
    { spawn_child (join_argv cfg h) { s with hostServiceActive := false } with
      singlePlayerRunning := false }

/-- `host_game` (main.c lines 214-242): spawn the multiplayer host process
and publish the local host service record (`create_service`). -/
def host_game (cfg : config) (num_players : Nat) (s : SessionState) : SessionState :=
  { spawn_child (host_argv cfg num_players) s with
    singlePlayerRunning := false, hostServiceActive := true }

/-- `countOthers()` of the spec / the counting loop of `on_source_timeout`
(main.c lines 260-266): number of registry entries without the our-own flag. -/
def count_others (s : SessionState) : Nat :=
  (s.registry.filter (fun c => !(our_own c))).length

/-- `best()` of the spec: the first entry of the sorted registry
(`TAILQ_FIRST(&client_service_list)` in main.c line 268). -/
def best (s : SessionState) : Option remote_service :=
  s.registry.head?

/-- The decision body of `on_source_timeout` (main.c lines 268-288). -/
def election_decision (cfg : config) (s : SessionState) : SessionState :=
  match best s with
  | some b =>
    if b.can_host then
      if our_own b then
        if count_others s != 0 then host_game cfg (count_others s + 1) s
        else launch_single_player cfg s
      else s
    else launch_single_player cfg s
  | none => launch_single_player cfg s

/-- `on_source_timeout` (main.c lines 256-292): the election decision.  The
timer source is single-shot (`return FALSE` with `timeout_source = 0`). -/
def on_source_timeout (cfg : config) (s : SessionState) : SessionState :=
  { election_decision cfg s with timerPending := false }

/-- `on_child_exit` (main.c lines 244-254): the exiting process is no longer
running; a notification for a pid other than the tracked child is ignored,
otherwise clear `single_player_running` and fall back to single player. -/
def child_exit_update (cfg : config) (pid : Nat) (s : SessionState) : SessionState :=
  if pid ≠ s.childPid then s
  else launch_single_player cfg { s with singlePlayerRunning := false }

/-- The dispatch of `on_child_exit` after the exiting process has been
dropped from the running set. -/
def on_child_exit (cfg : config) (pid : Nat) (s : SessionState) : SessionState :=
  child_exit_update cfg pid
    { s with liveChildren := s.liveChildren.filter (fun p => p ≠ pid) }

/-- The `AVAHI_RESOLVER_FOUND` branch of `resolve_callback` (main.c lines
408-513) after TXT parsing, acting on the already-built `remote_service`. -/
def resolve_found (cfg : config) (svc : remote_service) (s : SessionState) : SessionState :=
  if svc.type == CLIENT_SERVICE_NAME then
    if !(our_own svc) then
      { s with registry := upsert_client svc s.registry, timerPending := true }
    else
      { s with registry := upsert_client svc s.registry }
  else if svc.type == HOST_SERVICE_NAME then
    if !(our_own svc) then
      { connect_to_host cfg { s with currentHost := some svc } with
        timerPending := false }
    else s
  else s

/-- The `AVAHI_RESOLVER_FAILURE` branch of `resolve_callback` (main.c lines
399-405): it calls `g_error`, which in GLib logs at `G_LOG_LEVEL_ERROR` and
then aborts the whole process. -/
def resolve_failure (s : SessionState) : SessionState :=
  { s with aborted := true }

/-- The current-host check of the `AVAHI_BROWSER_REMOVE` branch of
`browse_callback` (main.c lines 571-579): if the removed record is the
current host, clear it, fall back to single player and restart the timer. -/
def browse_remove_host_check (cfg : config) (name type domain : String)
    (s : SessionState) : SessionState :=
  match s.currentHost with
  | some h =>
    if matches_ntd h name type domain then
      { launch_single_player cfg { s with currentHost := none } with
        timerPending := true }
    else s
  | none => s

/-- The `AVAHI_BROWSER_REMOVE` branch of `browse_callback` (main.c lines
550-580): remove matching client entries, restarting the debounce timer if
any removed entry was non-self, then run the current-host check. -/
def browse_remove (cfg : config) (name type domain : String) (s : SessionState) : SessionState :=
  browse_remove_host_check cfg name type domain
    { s with
      registry := s.registry.filter (fun c => !(matches_ntd c name type domain)),
      timerPending := s.timerPending ||
        (s.registry.filter (fun c => matches_ntd c name type domain)).any
          (fun c => !(our_own c)) }

/-- The discovery / timer / child events multiplexed onto the single GLib
main loop of main.c. -/
inductive Event where
  | resolveFound (svc : remote_service)
  | resolveFailure (name type domain : String)
  | browseRemove (name type domain : String)
  | sourceTimeout
  | childExit (pid : Nat)
deriving DecidableEq

/-- Dispatch one event to its handler.  Once `g_error` has aborted the
process no further callback runs. -/
def handle (cfg : config) (s : SessionState) (e : Event) : SessionState :=
  if s.aborted then s
  else
    match e with
    | .resolveFound svc => resolve_found cfg svc s
    | .resolveFailure _ _ _ => resolve_failure s
    | .browseRemove n t d => browse_remove cfg n t d s
    | .sourceTimeout => on_source_timeout cfg s
    | .childExit p => on_child_exit cfg p s

/-- The state at the end of `main` before the loop runs: empty registry, no
host, no timer, and `launch_single_player()` already called (main.c line
744). -/
def startup (cfg : config) : SessionState :=
  launch_single_player cfg
    { registry := [], currentHost := none, timerPending := false, childPid := 0,
      childArgv := none, singlePlayerRunning := false, hostServiceActive := false,
      liveChildren := [], nextPid := 0, aborted := false }

/-- The TXT-record scanning loop of `resolve_callback` (main.c lines
442-459): each pair is split by Avahi into a key and an optional value; a
`can-host` pair sets `can_host` to whether the value is exactly "1", a `wad`
pair sets `wad`.  Later pairs overwrite earlier ones. -/
def parse_txt_step (acc : Bool × Option String) (p : String × Option String) :
    Bool × Option String :=
  if g_strcmp0 p.1 CAN_HOST_KEY == 0 then
    ((match p.2 with
      | some v => g_strcmp0 v "1" == 0
      | none => false), acc.2)
  else if g_strcmp0 p.1 WAD_KEY == 0 then (acc.1, p.2)
  else acc

/-- Fold of the TXT scanning loop over the whole TXT list, starting from the
`g_malloc0`-zeroed service (`can_host = false`, `wad = NULL`).  Returns the
resulting `(can_host, wad)` pair. -/
def parse_txt (txt : List (String × Option String)) : Bool × Option String :=
  txt.foldl parse_txt_step (false, none)

/-- State of the single-shot debounce timer (`timeout_source`): the absolute
time, in milliseconds, at which a pending timer will fire. -/
structure TimerState where
  deadline : Option Nat
deriving DecidableEq

/-- `restart_source_timer` (main.c lines 107-111) executed at time `now`:
cancel any pending timer and schedule a new one `source_wait * 1000`
milliseconds ahead (`g_timeout_add(config.source_wait * 1000, ...)`). -/
def restart_source_timer (wait now : Nat) : TimerState :=
  ⟨some (now + wait * 1000)⟩

/-- A registry-mutating discovery event for the debounce model: its arrival
time (ms) and whether it concerns this node's own record. -/
structure DebEvent where
  time : Nat
  isSelf : Bool
deriving DecidableEq

/-- One step of the debounced timeline, carrying the timer state and the
number of election decisions (timer firings) so far.  Before the event is
handled, a pending timer whose deadline has passed fires (one election
decision; the source is single-shot).  Then the event is handled: a non-self
event restarts the timer (`restart_source_timer` call sites in main.c lines
494-497, 561-563); a self event leaves it alone. -/
def deb_step (wait : Nat) (st : TimerState × Nat) (e : DebEvent) : TimerState × Nat :=
  let fired :=
    match st.1.deadline with
    | some d => decide (d ≤ e.time)
    | none => false
  let t1 : TimerState := if fired then ⟨none⟩ else st.1
  let n1 := st.2 + (if fired then 1 else 0)
  if e.isSelf then (t1, n1) else (restart_source_timer wait e.time, n1)

/-- Run the debounced timeline from an idle timer. -/
def deb_run (wait : Nat) (es : List DebEvent) : TimerState × Nat :=
  es.foldl (deb_step wait) (⟨none⟩, 0)

/-- Total number of election decisions produced by a finite event burst: the
firings during the burst plus the one firing of a timer still pending when
the burst is over (no further event cancels it, so it fires). -/
def decision_count (wait : Nat) (es : List DebEvent) : Nat :=
  let r := deb_run wait es
  r.2 + (match r.1.deadline with
         | some _ => 1
         | none => 0)

/-- Events are strictly ordered in time and consecutive events are separated
by less than `gap` milliseconds. -/
def gaps_lt (gap : Nat) : List DebEvent → Bool
  | [] => true
  | [_] => true
  | a :: b :: rest =>
    decide (a.time < b.time) && decide (b.time < a.time + gap) && gaps_lt gap (b :: rest)

/-- The registry invariant maintained by main.c: sorted by the election
comparator and free of `remote_service_equal` duplicates. -/
def registry_inv (l : List remote_service) : Prop :=
  l.Pairwise (fun x y => cmp_remote_service x y ≤ 0) ∧
    l.Pairwise (fun x y => remote_service_equal x y = false)

/-- At most one running child process, and the only running child (if any)
is the tracked one, with a genuine (nonzero) pid. -/
def child_inv (s : SessionState) : Prop :=
  (∀ p ∈ s.liveChildren, p = s.childPid ∧ 1 ≤ p) ∧ s.liveChildren.length ≤ 1

/-- A concrete configuration: the defaults of `parse_config` in main.c. -/
def cfg0 : config :=
  { port := 5029, zdoom := "zdoom", mp_wad := "freedm.wad", mp_map := "MAP01",
    mp_config := none, sp_wad := "freedoom1.wad", sp_config := none,
    can_host := true, source_wait := 30 }

/-- A concrete client-type remote service record (for witnesses and
counterexamples): name `n`, lookup-result flags `fl`, can-host flag `ch`. -/
def mk_client (n : String) (fl : Nat) (ch : Bool) : remote_service :=
  { interface := 0, protocol := 0, port := 5029, name := n,
    type := CLIENT_SERVICE_NAME, domain := "local", hostname := n ++ ".local",
    wad := none, flags := fl, can_host := ch }

/-- A concrete session state with an empty registry and nothing running. -/
def s_empty : SessionState :=
  { registry := [], currentHost := none, timerPending := false, childPid := 0,
    childArgv := none, singlePlayerRunning := false, hostServiceActive := false,
    liveChildren := [], nextPid := 0, aborted := false }

/-- The scenario of §8 of the spec: self is "A", others "B" and "C", every
entry (including the self entry, which sorts first lexicographically among
equals) with can-host false. -/
def c1_state : SessionState :=
  { s_empty with
    registry := [mk_client "A" AVAHI_LOOKUP_RESULT_OUR_OWN false,
                 mk_client "B" 0 false, mk_client "C" 0 false] }

/-- Registry whose best entry is the self entry with can-host true and two
non-self peers waiting. -/
def c1_host_state : SessionState :=
  { s_empty with
    registry := [mk_client "A" AVAHI_LOOKUP_RESULT_OUR_OWN true,
                 mk_client "B" 0 false, mk_client "C" 0 false] }

/-- Registry holding a single non-self peer that cannot host; the local node
is in the client role (a join process is tracked, single-player not
running). -/
def c3_state : SessionState :=
  { s_empty with
    registry := [mk_client "B" 0 false],
    childPid := 1, childArgv := some ["zdoom"], liveChildren := [1], nextPid := 1 }

/-- Registry holding a single non-self peer that can host. -/
def c3_wait_state : SessionState :=
  { s_empty with registry := [mk_client "B" 0 true], timerPending := true }

/-- A concrete non-self host-type service record. -/
def host0 : remote_service :=
  { interface := 0, protocol := 0, port := 5031, name := "H",
    type := HOST_SERVICE_NAME, domain := "local", hostname := "h.local",
    wad := some "freedm.wad", flags := 0, can_host := false }

/-- A client-role state whose current host is `host0`. -/
def c4_state : SessionState :=
  { s_empty with
    currentHost := some host0, childPid := 1,
    childArgv := some (join_argv cfg0 host0), liveChildren := [1], nextPid := 1 }

/-- Two client records agreeing on name, type, interface and protocol but
living in different domains. -/
def c7_a : remote_service := mk_client "X" 0 true

/-- Same identity as `c7_a` except for the domain component. -/
def c7_b : remote_service := { mk_client "X" 0 true with domain := "other" }

end DoomLauncher

namespace DoomLauncher

/-! ### Ordering lemmas for the byte-wise comparison -/

theorem strcmpChars_neg (a b : List Char) : strcmpChars a b = - strcmpChars b a := by
  induction a generalizing b with
  | nil => cases b <;> simp [strcmpChars]
  | cons x as ih =>
    cases b with
    | nil => simp [strcmpChars]
    | cons y bs =>
      by_cases h1 : x.toNat < y.toNat
      · simp [strcmpChars, h1, Nat.lt_asymm h1]
      · by_cases h2 : y.toNat < x.toNat
        · simp [strcmpChars, h1, h2]
        · simp [strcmpChars, h1, h2, ih]

theorem char_eq_of_toNat_eq {a b : Char} (h : a.toNat = b.toNat) : a = b :=
  Char.ext (UInt32.ext h)

theorem strcmpChars_eq_zero (a b : List Char) : strcmpChars a b = 0 ↔ a = b := by
  induction a generalizing b with
  | nil => cases b <;> simp [strcmpChars]
  | cons x as ih =>
    cases b with
    | nil => simp [strcmpChars]
    | cons y bs =>
      by_cases h1 : x.toNat < y.toNat
      · simp only [strcmpChars, if_pos h1]
        constructor
        · intro h; exact absurd h (by decide)
        · rintro ⟨rfl, rfl⟩; exact absurd h1 (lt_irrefl _)
      · by_cases h2 : y.toNat < x.toNat
        · simp only [strcmpChars, if_neg h1, if_pos h2]
          constructor
          · intro h; exact absurd h (by decide)
          · rintro ⟨rfl, rfl⟩; exact absurd h2 (lt_irrefl _)
        · have hxy : x = y :=
            char_eq_of_toNat_eq (Nat.le_antisymm (Nat.le_of_not_lt h2) (Nat.le_of_not_lt h1))
          simp [strcmpChars, h1, h2, ih, hxy]

theorem strcmpChars_trans {a b c : List Char} (hab : strcmpChars a b ≤ 0)
    (hbc : strcmpChars b c ≤ 0) : strcmpChars a c ≤ 0 := by
  induction a generalizing b c with
  | nil => cases c <;> simp [strcmpChars]
  | cons x as ih =>
    cases b with
    | nil => simp [strcmpChars] at hab
    | cons y bs =>
      cases c with
      | nil => simp [strcmpChars] at hbc
      | cons z cs =>
        simp only [strcmpChars] at hab hbc ⊢
        by_cases h1 : x.toNat < y.toNat <;> by_cases h2 : y.toNat < z.toNat
        · simp [Nat.lt_trans h1 h2]
        · simp only [if_pos h1] at hab
          by_cases h3 : z.toNat < y.toNat
          · simp only [if_pos h2, if_pos h3] at hbc; omega
          · have h4 : y.toNat = z.toNat := by omega
            simp [h4 ▸ h1]
        · simp only [if_neg h1] at hab
          by_cases h1b : y.toNat < x.toNat
          · simp [if_pos h1b] at hab
          · have hxy : x.toNat = y.toNat := by omega
            simp [hxy, h2]
        · simp only [if_neg h1, if_neg h2] at hab hbc
          by_cases h1b : y.toNat < x.toNat
          · simp [if_pos h1b] at hab
          · by_cases h2b : z.toNat < y.toNat
            · simp [if_pos h2b] at hbc
            · have hxy : x.toNat = y.toNat := by omega
              have h5 : ¬ x.toNat < z.toNat := by omega
              have h6 : ¬ z.toNat < x.toNat := by omega
              simp only [if_neg h1b, if_neg h2b] at hab hbc
              simp [h5, h6, ih hab hbc]

theorem g_strcmp0_neg (a b : String) : g_strcmp0 a b = - g_strcmp0 b a :=
  strcmpChars_neg a.data b.data

theorem g_strcmp0_eq_zero (a b : String) : g_strcmp0 a b = 0 ↔ a = b := by
  unfold g_strcmp0
  rw [strcmpChars_eq_zero]
  constructor
  · intro h
    cases a
    cases b
    exact congrArg String.mk h
  · intro h; rw [h]

theorem g_strcmp0_trans {a b c : String} (hab : g_strcmp0 a b ≤ 0)
    (hbc : g_strcmp0 b c ≤ 0) : g_strcmp0 a c ≤ 0 :=
  strcmpChars_trans hab hbc

theorem g_strcmp0_self (a : String) : g_strcmp0 a a = 0 :=
  (g_strcmp0_eq_zero a a).mpr rfl

/-! ### The election comparator is a total preorder -/

theorem cmp_remote_service_neg (a b : remote_service) :
    cmp_remote_service a b = - cmp_remote_service b a := by
  unfold cmp_remote_service
  cases ha : a.can_host <;> cases hb : b.can_host <;>
    simp [g_strcmp0_neg a.name b.name]

theorem cmp_remote_service_trans {a b c : remote_service}
    (hab : cmp_remote_service a b ≤ 0) (hbc : cmp_remote_service b c ≤ 0) :
    cmp_remote_service a c ≤ 0 := by
  unfold cmp_remote_service at hab hbc ⊢
  cases ha : a.can_host <;> cases hb : b.can_host <;> cases hc : c.can_host <;>
    simp [ha, hb, hc] at hab hbc ⊢ <;>
    try exact g_strcmp0_trans hab hbc

theorem cmp_le_of_not_lt {a b : remote_service}
    (h : ¬ cmp_remote_service a b < 0) : cmp_remote_service b a ≤ 0 := by
  rw [cmp_remote_service_neg b a]
  omega

theorem cmp_le_iff_election_le (a b : remote_service) :
    cmp_remote_service a b ≤ 0 ↔ election_le a b := by
  unfold cmp_remote_service election_le
  cases ha : a.can_host <;> cases hb : b.can_host <;> simp

/-! ### Sorted-insert and registry invariants -/

theorem mem_sorted_insert (x s : remote_service) (l : List remote_service) :
    x ∈ sorted_insert s l ↔ x = s ∨ x ∈ l := by
  induction l with
  | nil => simp [sorted_insert]
  | cons c rest ih =>
    unfold sorted_insert
    by_cases hlt : cmp_remote_service s c < 0
    · simp [hlt]
      try tauto
    · simp [hlt, ih]
      try tauto

theorem pairwise_cmp_sorted_insert (s : remote_service) {l : List remote_service}
    (h : l.Pairwise (fun x y => cmp_remote_service x y ≤ 0)) :
    (sorted_insert s l).Pairwise (fun x y => cmp_remote_service x y ≤ 0) := by
  induction l with
  | nil => simp [sorted_insert]
  | cons c rest ih =>
    obtain ⟨hc, hrest⟩ := List.pairwise_cons.mp h
    unfold sorted_insert
    by_cases hlt : cmp_remote_service s c < 0
    · rw [if_pos hlt]
      refine List.pairwise_cons.mpr ⟨?_, h⟩
      intro x hx
      rcases List.mem_cons.mp hx with rfl | hx
      · exact le_of_lt hlt
      · exact cmp_remote_service_trans (le_of_lt hlt) (hc x hx)
    · rw [if_neg hlt]
      refine List.pairwise_cons.mpr ⟨?_, ih hrest⟩
      intro x hx
      rcases (mem_sorted_insert x s rest).mp hx with rfl | hx
      · exact cmp_le_of_not_lt hlt
      · exact hc x hx

theorem pairwise_sorted_insert {R : remote_service → remote_service → Prop}
    (s : remote_service) {l : List remote_service} (h : l.Pairwise R)
    (h1 : ∀ x ∈ l, R s x) (h2 : ∀ x ∈ l, R x s) :
    (sorted_insert s l).Pairwise R := by
  induction l with
  | nil => simp [sorted_insert]
  | cons c rest ih =>
    obtain ⟨hc, hrest⟩ := List.pairwise_cons.mp h
    unfold sorted_insert
    by_cases hlt : cmp_remote_service s c < 0
    · rw [if_pos hlt]
      refine List.pairwise_cons.mpr ⟨?_, h⟩
      intro y hy
      rcases List.mem_cons.mp hy with hyc | hyr
      · exact hyc ▸ h1 c (by simp)
      · exact h1 y (by simp [hyr])
    · rw [if_neg hlt]
      refine List.pairwise_cons.mpr
        ⟨?_, ih hrest (fun x hx => h1 x (by simp [hx])) (fun x hx => h2 x (by simp [hx]))⟩
      intro y hy
      rcases (mem_sorted_insert y s rest).mp hy with hys | hyr
      · rw [hys]
        exact h2 c (by simp)
      · exact hc y hyr

theorem remote_service_equal_iff (a b : remote_service) :
    remote_service_equal a b = true ↔
      a.type = b.type ∧ a.name = b.name ∧ a.interface = b.interface ∧ a.protocol = b.protocol := by
  unfold remote_service_equal
  simp [g_strcmp0_eq_zero, and_assoc]

theorem remote_service_equal_symm (a b : remote_service) :
    remote_service_equal a b = remote_service_equal b a := by
  cases hab : remote_service_equal a b <;> cases hba : remote_service_equal b a <;> try rfl
  · obtain ⟨h1, h2, h3, h4⟩ := (remote_service_equal_iff b a).mp hba
    rw [← hab, (remote_service_equal_iff a b).mpr ⟨h1.symm, h2.symm, h3.symm, h4.symm⟩]
  · obtain ⟨h1, h2, h3, h4⟩ := (remote_service_equal_iff a b).mp hab
    rw [← hba, (remote_service_equal_iff b a).mpr ⟨h1.symm, h2.symm, h3.symm, h4.symm⟩]

theorem registry_inv_upsert (svc : remote_service) {l : List remote_service}
    (h : registry_inv l) : registry_inv (upsert_client svc l) := by
  obtain ⟨hs, hd⟩ := h
  unfold upsert_client
  constructor
  · exact pairwise_cmp_sorted_insert svc (hs.filter _)
  · refine pairwise_sorted_insert svc (hd.filter _) ?_ ?_
    · intro x hx
      have := (List.mem_filter.mp hx).2
      simpa using this
    · intro x hx
      have := (List.mem_filter.mp hx).2
      rw [remote_service_equal_symm]
      simpa using this

theorem registry_inv_apply (op : RegistryOp) {l : List remote_service}
    (h : registry_inv l) : registry_inv (apply_registry_op l op) := by
  cases op with
  | upsert svc => exact registry_inv_upsert svc h
  | remove name ty dom => exact ⟨h.1.filter _, h.2.filter _⟩

theorem registry_inv_foldl (ops : List RegistryOp) {l : List remote_service}
    (h : registry_inv l) : registry_inv (ops.foldl apply_registry_op l) := by
  induction ops generalizing l with
  | nil => exact h
  | cons op rest ih => exact ih (registry_inv_apply op h)

theorem same_identity_equal {a b : remote_service} (h : same_identity a b) :
    remote_service_equal a b = true :=
  (remote_service_equal_iff a b).mpr ⟨h.2.1, h.1, h.2.2.2.1, h.2.2.2.2⟩

end DoomLauncher

namespace DoomLauncher

/-! ### Claim C6 -/

/-- C6: after every sequence of upserts and removals, starting from the empty
registry, the Remote Peer Registry is sorted by the election ordering
(entries with can-host true before entries with can-host false, and within
equal can-host ascending lexicographic service name) and contains no two
entries with the same composite identity. -/
theorem C6_registry_sorted_and_duplicate_free (ops : List RegistryOp) :
    (ops.foldl apply_registry_op []).Pairwise election_le ∧
      (ops.foldl apply_registry_op []).Pairwise (fun a b => ¬ same_identity a b) := by
  have h : registry_inv (ops.foldl apply_registry_op []) :=
    registry_inv_foldl ops ⟨List.Pairwise.nil, List.Pairwise.nil⟩
  refine ⟨h.1.imp ?_, h.2.imp ?_⟩
  · intro a b hab
    exact (cmp_le_iff_election_le a b).mp hab
  · intro a b hab hsame
    rw [same_identity_equal hsame] at hab
    exact Bool.true_eq_false.mp hab

/-! ### Claim C7 -/

/-- C7 counterexample: two client records that agree on service name, type,
interface and protocol but live in DIFFERENT domains are treated as equal by
`remote_service_equal`, so the upsert removes the old entry instead of
retaining both as the claimed five-component identity would require. -/
theorem C7_counterexample :
    c7_a.domain ≠ c7_b.domain ∧
    remote_service_equal c7_a c7_b = true ∧
    upsert_client c7_a [c7_b] = [c7_a] ∧
    c7_b ∉ upsert_client c7_a [c7_b] := by decide

/-- C7 (amended): `upsertClientCandidate` removes an existing entry before
inserting exactly when the existing entry agrees with the new one on the
FOUR components (serviceName, serviceType, networkInterface,
networkProtocol); the domain is not compared, so entries differing only in
domain are deduplicated rather than both retained. -/
theorem C7_upsert_removes_on_four_components (svc c : remote_service)
    (l : List remote_service) :
    (remote_service_equal svc c = true ↔
       svc.name = c.name ∧ svc.type = c.type ∧
         svc.interface = c.interface ∧ svc.protocol = c.protocol) ∧
    (c ∈ upsert_client svc l ↔
       c = svc ∨ (c ∈ l ∧ ¬(svc.name = c.name ∧ svc.type = c.type ∧
         svc.interface = c.interface ∧ svc.protocol = c.protocol))) := by
  constructor
  · rw [remote_service_equal_iff]
    tauto
  · unfold upsert_client
    rw [mem_sorted_insert]
    simp only [List.mem_filter, Bool.not_eq_true', ← Bool.not_eq_true (remote_service_equal svc c)]
    rw [remote_service_equal_iff]
    tauto

/-! ### Claim C9 -/

/-- C9 (code bug): the claim (and the spec) say a resolve failure is
non-fatal, merely logged, with the peer never added and the program
continuing; but the `AVAHI_RESOLVER_FAILURE` branch of `resolve_callback`
calls `g_error`, which is fatal in GLib and aborts the whole process.  At
the concrete failing input below, the program aborts. -/
theorem C9_resolve_failure_aborts :
    (startup cfg0).aborted = false ∧
    (handle cfg0 (startup cfg0)
      (.resolveFailure "peer" CLIENT_SERVICE_NAME "local")).aborted = true := by
  constructor <;> rfl

/-! ### Claim C10 -/

theorem parse_txt_can_host_foldl (txt : List (String × Option String))
    (b : Bool) (w : Option String) :
    (txt.foldl parse_txt_step (b, w)).1 =
      (txt.reverse.find? (fun p => g_strcmp0 p.1 CAN_HOST_KEY == 0)).elim b
        (fun p =>
          match p.2 with
          | some v => g_strcmp0 v "1" == 0
          | none => false) := by
  induction txt generalizing b w with
  | nil => simp
  | cons p rest ih =>
    rw [List.foldl_cons, List.reverse_cons, List.find?_append]
    rcases hstep : parse_txt_step (b, w) p with ⟨b', w'⟩
    rw [ih b' w']
    cases hf : rest.reverse.find? (fun p => g_strcmp0 p.1 CAN_HOST_KEY == 0) with
    | some q => simp [Option.or]
    | none =>
      simp only [Option.or, Option.elim]
      by_cases hkey : (g_strcmp0 p.1 CAN_HOST_KEY == 0) = true
      · unfold parse_txt_step at hstep
        rw [if_pos hkey] at hstep
        simp [List.find?, hkey]
        exact (congrArg Prod.fst hstep).symm
      · unfold parse_txt_step at hstep
        rw [if_neg hkey] at hstep
        have hb : b' = b := by
          by_cases hwad : (g_strcmp0 p.1 WAD_KEY == 0) = true
          · rw [if_pos hwad] at hstep
            exact (congrArg Prod.fst hstep).symm
          · rw [if_neg hwad] at hstep
            exact (congrArg Prod.fst hstep).symm
        simp [List.find?, hkey, hb]

/-- C10 counterexample: a TXT record that contains a can-host pair with value
exactly "1" can still parse to `can_host = false`, because a later can-host
pair overrides the earlier one; so "contains a can-host key with value 1"
does not imply `canHost = true`. -/
theorem C10_counterexample :
    ((CAN_HOST_KEY, some "1") ∈
       [(CAN_HOST_KEY, (some "1" : Option String)), (CAN_HOST_KEY, some "0")]) ∧
    (parse_txt [(CAN_HOST_KEY, some "1"), (CAN_HOST_KEY, some "0")]).1 = false := by
  decide

/-- C10 (amended): a resolved peer's `can_host` is decided by the LAST
can-host pair of its TXT record in scan order: it is true iff that last pair
has the value exactly "1"; a missing can-host key or any other value
(including a missing value) yields false. -/
theorem C10_can_host_last_pair (txt : List (String × Option String)) :
    (parse_txt txt).1 =
      (txt.reverse.find? (fun p => g_strcmp0 p.1 CAN_HOST_KEY == 0)).elim false
        (fun p =>
          match p.2 with
          | some v => g_strcmp0 v "1" == 0
          | none => false) :=
  parse_txt_can_host_foldl txt false none

end DoomLauncher

namespace DoomLauncher

/-! ### Projection helpers for the session handlers -/

theorem spawn_child_proj (argv : List String) (s : SessionState) :
    (spawn_child argv s).childArgv = some argv ∧
    (spawn_child argv s).singlePlayerRunning = s.singlePlayerRunning ∧
    (spawn_child argv s).hostServiceActive = s.hostServiceActive ∧
    (spawn_child argv s).registry = s.registry ∧
    (spawn_child argv s).currentHost = s.currentHost ∧
    (spawn_child argv s).timerPending = s.timerPending ∧
    (spawn_child argv s).aborted = s.aborted := by
  unfold spawn_child spawn_reap spawn_start
  split <;> simp

theorem launch_single_player_proj (cfg : config) (s : SessionState) :
    (launch_single_player cfg s).singlePlayerRunning = true ∧
    (launch_single_player cfg s).hostServiceActive = false ∧
    (launch_single_player cfg s).registry = s.registry ∧
    (launch_single_player cfg s).currentHost = s.currentHost ∧
    (launch_single_player cfg s).timerPending = s.timerPending := by
  unfold launch_single_player
  by_cases h : s.singlePlayerRunning <;> simp [h, spawn_child_proj]

theorem host_game_proj (cfg : config) (n : Nat) (s : SessionState) :
    (host_game cfg n s).childArgv = some (host_argv cfg n) ∧
    (host_game cfg n s).singlePlayerRunning = false ∧
    (host_game cfg n s).hostServiceActive = true ∧
    (host_game cfg n s).registry = s.registry ∧
    (host_game cfg n s).currentHost = s.currentHost ∧
    (host_game cfg n s).timerPending = s.timerPending := by
  unfold host_game
  simp [spawn_child_proj]

/-! ### Claim C1 -/

/-- C1 counterexample: an election-timer firing in which `best()` returns the
self entry ("A", our-own flag set, lexicographically first among equals) and
`countOthers() = 2 > 0`, with every entry carrying `canHost = false`: the code
launches the single-player game (and publishes no host advertisement) instead
of transitioning to Host with player count 3 as the claim requires. -/
theorem C1_counterexample :
    best c1_state = some (mk_client "A" AVAHI_LOOKUP_RESULT_OUR_OWN false) ∧
    our_own (mk_client "A" AVAHI_LOOKUP_RESULT_OUR_OWN false) = true ∧
    count_others c1_state = 2 ∧
    (on_source_timeout cfg0 c1_state).childArgv = some (sp_argv cfg0) ∧
    (on_source_timeout cfg0 c1_state).hostServiceActive = false ∧
    sp_argv cfg0 ≠ host_argv cfg0 3 := by
  decide

/-- C1 (amended): for every election-timer firing in which `best()` returns
the self entry WITH `canHost = true` and `countOthers() > 0`, the node
transitions to Host with player count `countOthers() + 1`: it spawns the
multiplayer host process for that many players, clears the single-player
flag, publishes the host advertisement, and the timer source is consumed. -/
theorem C1_self_best_can_host_hosts (cfg : config) (s : SessionState)
    (b : remote_service) (hbest : best s = some b) (hch : b.can_host = true)
    (hself : our_own b = true) (hcnt : 0 < count_others s) :
    (on_source_timeout cfg s).childArgv = some (host_argv cfg (count_others s + 1)) ∧
    (on_source_timeout cfg s).singlePlayerRunning = false ∧
    (on_source_timeout cfg s).hostServiceActive = true ∧
    (on_source_timeout cfg s).timerPending = false := by
  have hne : (count_others s != 0) = true := by
    simp only [bne_iff_ne, ne_eq]
    omega
  have hdec : election_decision cfg s = host_game cfg (count_others s + 1) s := by
    unfold election_decision
    rw [hbest]
    simp [hch, hself, hne]
  unfold on_source_timeout
  rw [hdec]
  simp [host_game_proj]

/-- Witness for C1: a concrete firing with self entry "A" (can-host true) and
two non-self peers, producing the host process for 3 players. -/
theorem C1_witness :
    best c1_host_state = some (mk_client "A" AVAHI_LOOKUP_RESULT_OUR_OWN true) ∧
    0 < count_others c1_host_state ∧
    (on_source_timeout cfg0 c1_host_state).childArgv =
      some (host_argv cfg0 (count_others c1_host_state + 1)) ∧
    (on_source_timeout cfg0 c1_host_state).hostServiceActive = true :=
  ⟨rfl, by decide,
   (C1_self_best_can_host_hosts cfg0 c1_host_state
      (mk_client "A" AVAHI_LOOKUP_RESULT_OUR_OWN true) rfl rfl rfl (by decide)).1,
   (C1_self_best_can_host_hosts cfg0 c1_host_state
      (mk_client "A" AVAHI_LOOKUP_RESULT_OUR_OWN true) rfl rfl rfl (by decide)).2.2.1⟩

/-! ### Claim C2 -/

/-- C2: whenever a non-self host-type record resolves, it unconditionally
becomes the current host (replacing any previous one), the pending election
timer is cancelled, and the node transitions to Client by spawning the join
process pointed at that host's hostname, port and WAD. -/
theorem C2_host_record_resolution (cfg : config) (s : SessionState)
    (svc : remote_service) (htype : svc.type = HOST_SERVICE_NAME)
    (hown : our_own svc = false) :
    (resolve_found cfg svc s).currentHost = some svc ∧
    (resolve_found cfg svc s).timerPending = false ∧
    (resolve_found cfg svc s).childArgv = some (join_argv cfg svc) ∧
    (resolve_found cfg svc s).singlePlayerRunning = false := by
  have h1 : (HOST_SERVICE_NAME == CLIENT_SERVICE_NAME) = false := by decide
  have h2 : (HOST_SERVICE_NAME == HOST_SERVICE_NAME) = true := by decide
  unfold resolve_found
  rw [htype]
  simp [h1, h2, hown, connect_to_host, spawn_child_proj]

/-- Witness for C2: the concrete non-self host record `host0` resolving while
a client-candidate registry entry and a pending timer exist. -/
theorem C2_witness :
    host0.type = HOST_SERVICE_NAME ∧ our_own host0 = false ∧
    (resolve_found cfg0 host0 s_empty).currentHost = some host0 ∧
    (resolve_found cfg0 host0 s_empty).timerPending = false ∧
    (resolve_found cfg0 host0 s_empty).childArgv = some (join_argv cfg0 host0) ∧
    (resolve_found cfg0 host0 s_empty).singlePlayerRunning = false :=
  ⟨rfl, rfl, C2_host_record_resolution cfg0 s_empty host0 rfl rfl⟩

/-! ### Claim C3 -/

/-- C3 counterexample: an election-timer firing in which `best()` returns a
non-self entry but that entry has `canHost = false`: starting from a
client-role state, the code flips the single-player-running flag and spawns
(replaces) a process — it does NOT stay in the current role as claimed. -/
theorem C3_counterexample :
    best c3_state = some (mk_client "B" 0 false) ∧
    our_own (mk_client "B" 0 false) = false ∧
    c3_state.singlePlayerRunning = false ∧
    (on_source_timeout cfg0 c3_state).singlePlayerRunning = true ∧
    (on_source_timeout cfg0 c3_state).childArgv = some (sp_argv cfg0) ∧
    c3_state.childArgv ≠ some (sp_argv cfg0) := by
  decide

/-- C3 (amended): for every election-timer firing in which `best()` returns a
non-self entry WITH `canHost = true`, the node stays in its current role: the
whole state is unchanged except that the fired timer source is consumed (no
process spawned or replaced, the single-player flag unchanged, no
advertisement published or withdrawn). -/
theorem C3_nonself_best_can_host_stays (cfg : config) (s : SessionState)
    (b : remote_service) (hbest : best s = some b) (hch : b.can_host = true)
    (hown : our_own b = false) :
    on_source_timeout cfg s = { s with timerPending := false } := by
  have hdec : election_decision cfg s = s := by
    unfold election_decision
    rw [hbest]
    simp [hch, hown]
  unfold on_source_timeout
  rw [hdec]

/-- Witness for C3: a concrete firing with a single non-self can-host peer
"B": the state is untouched apart from the consumed timer source. -/
theorem C3_witness :
    best c3_wait_state = some (mk_client "B" 0 true) ∧
    our_own (mk_client "B" 0 true) = false ∧
    on_source_timeout cfg0 c3_wait_state = { c3_wait_state with timerPending := false } :=
  ⟨rfl, rfl,
   C3_nonself_best_can_host_stays cfg0 c3_wait_state (mk_client "B" 0 true) rfl rfl rfl⟩

/-! ### Claim C4 -/

/-- C4: whenever a removal event matches the current host record, the current
host is cleared, the node transitions to SinglePlayer (single-player flag
set, host advertisement withdrawn) and the election timer is re-armed. -/
theorem C4_current_host_removed (cfg : config) (s : SessionState)
    (n t d : String) (h : remote_service) (hcur : s.currentHost = some h)
    (hm : matches_ntd h n t d = true) :
    (browse_remove cfg n t d s).currentHost = none ∧
    (browse_remove cfg n t d s).timerPending = true ∧
    (browse_remove cfg n t d s).singlePlayerRunning = true ∧
    (browse_remove cfg n t d s).hostServiceActive = false := by
  unfold browse_remove browse_remove_host_check
  simp [hcur, hm, launch_single_player_proj]

/-- Witness for C4: removal of the concrete record `host0` while it is the
current host of a client-role state. -/
theorem C4_witness :
    c4_state.currentHost = some host0 ∧
    matches_ntd host0 "H" HOST_SERVICE_NAME "local" = true ∧
    (browse_remove cfg0 "H" HOST_SERVICE_NAME "local" c4_state).currentHost = none ∧
    (browse_remove cfg0 "H" HOST_SERVICE_NAME "local" c4_state).timerPending = true ∧
    (browse_remove cfg0 "H" HOST_SERVICE_NAME "local" c4_state).singlePlayerRunning = true ∧
    (browse_remove cfg0 "H" HOST_SERVICE_NAME "local" c4_state).hostServiceActive = false :=
  ⟨rfl, by decide,
   C4_current_host_removed cfg0 c4_state "H" HOST_SERVICE_NAME "local" host0 rfl (by decide)⟩

end DoomLauncher

namespace DoomLauncher

/-! ### Claim C5 -/

theorem deb_run_chain (wait : Nat) (rest : List DebEvent) (e0 : DebEvent) (n : Nat)
    (hns : ∀ e ∈ rest, e.isSelf = false)
    (hgap : gaps_lt (wait * 1000) (e0 :: rest) = true) :
    rest.foldl (deb_step wait) (⟨some (e0.time + wait * 1000)⟩, n) =
      (⟨some ((rest.getLast?.getD e0).time + wait * 1000)⟩, n) := by
  induction rest generalizing e0 with
  | nil => simp
  | cons e1 rest ih =>
    have hg : e0.time < e1.time ∧ e1.time < e0.time + wait * 1000 ∧
        gaps_lt (wait * 1000) (e1 :: rest) = true := by
      cases rest <;> simp [gaps_lt] at hgap ⊢ <;> tauto
    have hfire : ¬ (e0.time + wait * 1000 ≤ e1.time) := by omega
    have hself1 : e1.isSelf = false := hns e1 (by simp)
    rw [List.foldl_cons]
    have hstep : deb_step wait (⟨some (e0.time + wait * 1000)⟩, n) e1 =
        (⟨some (e1.time + wait * 1000)⟩, n) := by
      simp [deb_step, hfire, hself1, restart_source_timer]
    rw [hstep, ih e1 (fun e he => hns e (by simp [he])) hg.2.2, List.getLast?_cons]
    simp

/-- C5: for every nonempty burst of registry-mutating discovery events from
non-self peers arriving with gaps shorter than the quiet period, exactly one
election decision occurs: each event cancels and replaces the single pending
timer, which fires once, `source_wait` seconds after the last event; and an
event whose our-own flag is set never re-arms the timer (it can only leave
it alone or let an already-expired one fire). -/
theorem C5_debounce (wait : Nat) (es : List DebEvent) (hne : es ≠ [])
    (hns : ∀ e ∈ es, e.isSelf = false)
    (hgap : gaps_lt (wait * 1000) es = true) :
    decision_count wait es = 1 ∧
    (deb_run wait es).1.deadline = es.getLast?.map (fun e => e.time + wait * 1000) ∧
    (∀ st : TimerState × Nat, ∀ t : Nat,
      (deb_step wait st ⟨t, true⟩).1.deadline = st.1.deadline ∨
      (deb_step wait st ⟨t, true⟩).1.deadline = none) := by
  cases es with
  | nil => exact absurd rfl hne
  | cons e0 rest =>
    have hself0 : e0.isSelf = false := hns e0 (by simp)
    have hrun : deb_run wait (e0 :: rest) =
        (⟨some ((rest.getLast?.getD e0).time + wait * 1000)⟩, 0) := by
      unfold deb_run
      rw [List.foldl_cons]
      have hstep : deb_step wait (⟨none⟩, 0) e0 = (⟨some (e0.time + wait * 1000)⟩, 0) := by
        simp [deb_step, hself0, restart_source_timer]
      rw [hstep]
      exact deb_run_chain wait rest e0 0 (fun e he => hns e (by simp [he])) hgap
    refine ⟨?_, ?_, ?_⟩
    · simp [decision_count, hrun]
    · rw [hrun, List.getLast?_cons]
      simp
    · intro st t
      rcases st with ⟨t0, n0⟩
      cases hd : t0.deadline with
      | none => left; simp [deb_step, hd]
      | some d =>
        by_cases hle : d ≤ t
        · right; simp [deb_step, hd, hle]
        · left; simp [deb_step, hd, hle]

/-- Witness for C5: three non-self events at 0s, 10s and 25s with a 30s quiet
period produce exactly one election decision, scheduled 30s after the last
event. -/
theorem C5_witness :
    ([⟨0, false⟩, ⟨10000, false⟩, ⟨25000, false⟩] : List DebEvent) ≠ [] ∧
    gaps_lt (30 * 1000) [⟨0, false⟩, ⟨10000, false⟩, ⟨25000, false⟩] = true ∧
    decision_count 30 [⟨0, false⟩, ⟨10000, false⟩, ⟨25000, false⟩] = 1 ∧
    (deb_run 30 [⟨0, false⟩, ⟨10000, false⟩, ⟨25000, false⟩]).1.deadline =
      ([⟨0, false⟩, ⟨10000, false⟩, ⟨25000, false⟩] : List DebEvent).getLast?.map
        (fun e => e.time + 30 * 1000) :=
  ⟨by decide, by decide,
   (C5_debounce 30 [⟨0, false⟩, ⟨10000, false⟩, ⟨25000, false⟩]
      (by decide) (by decide) (by decide)).1,
   (C5_debounce 30 [⟨0, false⟩, ⟨10000, false⟩, ⟨25000, false⟩]
      (by decide) (by decide) (by decide)).2.1⟩

/-! ### Claim C8 -/

theorem child_inv_of_eq {s t : SessionState} (h : child_inv s)
    (hl : t.liveChildren = s.liveChildren) (hp : t.childPid = s.childPid) :
    child_inv t := by
  obtain ⟨h1, h2⟩ := h
  constructor
  · intro p hmem
    rw [hl] at hmem
    rw [hp]
    exact h1 p hmem
  · rw [hl]
    exact h2

theorem child_inv_spawn_start (argv : List String) {t : SessionState}
    (hl : t.liveChildren = []) : child_inv (spawn_start argv t) := by
  unfold spawn_start
  refine ⟨?_, ?_⟩
  · intro p hmem
    simp only [hl, List.mem_cons, List.not_mem_nil, or_false] at hmem
    exact ⟨by simpa using hmem, by omega⟩
  · simp [hl]

theorem child_inv_spawn (argv : List String) {s : SessionState} (h : child_inv s) :
    child_inv (spawn_child argv s) := by
  obtain ⟨h1, -⟩ := h
  unfold spawn_child spawn_reap
  split
  · apply child_inv_spawn_start
    show s.liveChildren.filter (fun p => decide (p ≠ s.childPid)) = []
    rw [List.filter_eq_nil_iff]
    intro p hp
    simp [(h1 p hp).1]
  · rename_i hc
    apply child_inv_spawn_start
    show s.liveChildren = []
    have hzero : s.childPid = 0 := by simpa using hc
    cases hll : s.liveChildren with
    | nil => rfl
    | cons p ps =>
      have hp := h1 p (by rw [hll]; exact List.mem_cons_self p ps)
      rw [hzero] at hp
      omega

theorem child_inv_live_filter {s : SessionState} (h : child_inv s) (q : Nat → Bool) :
    child_inv { s with liveChildren := s.liveChildren.filter q } := by
  obtain ⟨h1, h2⟩ := h
  constructor
  · intro p hp
    exact h1 p (List.mem_of_mem_filter hp)
  · exact le_trans (s.liveChildren.length_filter_le q) h2

theorem child_inv_launch (cfg : config) {s : SessionState} (h : child_inv s) :
    child_inv (launch_single_player cfg s) := by
  unfold launch_single_player
  split
  · refine child_inv_of_eq (child_inv_spawn (sp_argv cfg) ?_) rfl rfl
    exact child_inv_of_eq h rfl rfl
  · exact child_inv_of_eq h rfl rfl

theorem child_inv_connect (cfg : config) {s : SessionState} (h : child_inv s) :
    child_inv (connect_to_host cfg s) := by
  unfold connect_to_host
  split
  · exact h
  · rename_i hst heq
    refine child_inv_of_eq (child_inv_spawn (join_argv cfg hst) ?_) rfl rfl
    exact child_inv_of_eq h rfl rfl

theorem child_inv_host_game (cfg : config) (n : Nat) {s : SessionState} (h : child_inv s) :
    child_inv (host_game cfg n s) :=
  child_inv_of_eq (child_inv_spawn (host_argv cfg n) h) rfl rfl

theorem child_inv_election (cfg : config) {s : SessionState} (h : child_inv s) :
    child_inv (election_decision cfg s) := by
  unfold election_decision
  split
  · split
    · split
      · split
        · exact child_inv_host_game cfg _ h
        · exact child_inv_launch cfg h
      · exact h
    · exact child_inv_launch cfg h
  · exact child_inv_launch cfg h

theorem child_inv_timeout (cfg : config) {s : SessionState} (h : child_inv s) :
    child_inv (on_source_timeout cfg s) := by
  unfold on_source_timeout
  exact child_inv_of_eq (child_inv_election cfg h) rfl rfl

theorem child_inv_child_exit (cfg : config) (pid : Nat) {s : SessionState}
    (h : child_inv s) : child_inv (on_child_exit cfg pid s) := by
  unfold on_child_exit child_exit_update
  split
  · exact child_inv_live_filter h _
  · exact child_inv_launch cfg (child_inv_of_eq (child_inv_live_filter h _) rfl rfl)

theorem child_inv_resolve_found (cfg : config) (svc : remote_service)
    {s : SessionState} (h : child_inv s) : child_inv (resolve_found cfg svc s) := by
  unfold resolve_found
  split
  · split
    · exact child_inv_of_eq h rfl rfl
    · exact child_inv_of_eq h rfl rfl
  · split
    · split
      · refine child_inv_of_eq (child_inv_connect cfg ?_) rfl rfl
        exact child_inv_of_eq h rfl rfl
      · exact h
    · exact h

theorem child_inv_browse_remove (cfg : config) (n t d : String)
    {s : SessionState} (h : child_inv s) : child_inv (browse_remove cfg n t d s) := by
  unfold browse_remove browse_remove_host_check
  split
  · split
    · refine child_inv_of_eq (child_inv_launch cfg ?_) rfl rfl
      exact child_inv_of_eq h rfl rfl
    · exact child_inv_of_eq h rfl rfl
  · exact child_inv_of_eq h rfl rfl

theorem child_inv_handle (cfg : config) (e : Event) {s : SessionState}
    (h : child_inv s) : child_inv (handle cfg s e) := by
  unfold handle
  split
  · exact h
  · cases e with
    | resolveFound svc => exact child_inv_resolve_found cfg svc h
    | resolveFailure n t d => exact child_inv_of_eq h rfl rfl
    | browseRemove n t d => exact child_inv_browse_remove cfg n t d h
    | sourceTimeout => exact child_inv_timeout cfg h
    | childExit p => exact child_inv_child_exit cfg p h

/-- C8: at most one child game process exists at any time: starting from the
program's startup state, after any sequence of discovery, timer and
child-exit events (including repeated child-exit notifications while already
in single-player), at most one child process is running — `spawn_child`
kills and synchronously waits for any tracked previous child before starting
the new one. -/
theorem C8_at_most_one_child (cfg : config) (es : List Event) :
    ((es.foldl (handle cfg) (startup cfg)).liveChildren).length ≤ 1 := by
  have hstart : child_inv (startup cfg) := by
    refine child_inv_launch cfg ?_
    constructor
    · intro p hp
      simp at hp
    · simp
  have hfold : ∀ (l : List Event) (s : SessionState), child_inv s →
      child_inv (l.foldl (handle cfg) s) := by
    intro l
    induction l with
    | nil => intro s hs; exact hs
    | cons e rest ih => intro s hs; exact ih _ (child_inv_handle cfg e hs)
  exact (hfold es _ hstart).2

end DoomLauncher
